import Mathlib

/-!
Shallow embedding of the repair_atlas web API routes and library helpers
(parts marketplace, tool catalog, fix-path routes, defect reporting,
device identification, rate limiting), with theorems checking the
natural-language specification against the code.

JavaScript numbers that the routes manipulate are modelled as exact
rationals; a possibly-NaN value (the result of parseFloat) is modelled
as an `Option ℚ` with `none` standing for NaN.
-/

namespace RepairAtlas

/-- JS `x || d` on an optional number: `null` and `0` are falsy. -/
def jsOrQ (x : Option ℚ) (d : ℚ) : ℚ :=
  match x with
  | none => d
  | some q => if q = 0 then d else q

/-- JS `s || d` on an optional string: `null` and the empty string are falsy. -/
def jsOrStr (x : Option String) (d : String) : String :=
  match x with
  | none => d
  | some s => if s = "" then d else s

/-- JS truthiness of a number that may be NaN (`none`): NaN and 0 are falsy. -/
def jsTruthyNum (x : Option ℚ) : Bool :=
  match x with
  | none => false
  | some q => q != 0

/-! ### Parts marketplace (`/api/parts/search`) -/

/-- One vendor quote, as in the `PartSource` interface of the marketplace route. -/
structure PartSource where
  vendor : String
  url : String
  price : ℚ
  currency : String
  shipping : ℚ
  deliveryDays : Nat
  rating : ℚ
  reviews : Nat
  isOEM : Bool
  warranty : String
deriving DecidableEq

/-- The `bestDeal` record computed by `findBestDeal` (the intermediate
`deals` entries have the same shape, with `savings` initialised to 0). -/
structure Deal where
  vendor : String
  totalCost : ℚ
  savings : ℚ
deriving DecidableEq

/-- Function `generateVendorSources`: four template quotes from a single base
price, `basePrice = part.estimatedCost || 29.99`. -/
def generateVendorSources (partNumber : Option String) (estimatedCost : Option ℚ)
    (affiliateUrl : Option String) : List PartSource :=
  let basePrice : ℚ := jsOrQ estimatedCost 29.99
  let partNum : String := (partNumber.getD "")
  [ { vendor := "Amazon"
      url := jsOrStr affiliateUrl ("https://amazon.com/s?k=" ++ partNum)
      price := basePrice * 1.1
      currency := "USD"
      shipping := 0
      deliveryDays := 2
      rating := 4.5
      reviews := 1234
      isOEM := false
      warranty := "30-day return" },
    { vendor := "eBay"
      url := "https://ebay.com/sch/i.html?_nkw=" ++ partNum
      price := basePrice * 0.85
      currency := "USD"
      shipping := 5.99
      deliveryDays := 5
      rating := 4.3
      reviews := 456
      isOEM := false
      warranty := "Seller dependent" },
    { vendor := "OEM Direct"
      url := "#"
      price := basePrice * 1.5
      currency := "USD"
      shipping := 8.99
      deliveryDays := 7
      rating := 4.8
      reviews := 89
      isOEM := true
      warranty := "1-year manufacturer warranty" },
    { vendor := "AliExpress"
      url := "https://aliexpress.com/wholesale?SearchText=" ++ partNum
      price := basePrice * 0.6
      currency := "USD"
      shipping := 0
      deliveryDays := 21
      rating := 4.0
      reviews := 2345
      isOEM := false
      warranty := "60-day return" } ]

/-- Stable insertion of a deal into a list sorted by ascending `totalCost`,
modelling the JS stable `deals.sort((a, b) => a.totalCost - b.totalCost)`. -/
def insertDeal (d : Deal) : List Deal → List Deal
  | [] => [d]
  | e :: es => if d.totalCost ≤ e.totalCost then d :: e :: es else e :: insertDeal d es

/-- Stable sort of deals by ascending total cost. -/
def sortDeals : List Deal → List Deal
  | [] => []
  | d :: ds => insertDeal d (sortDeals ds)

/-- Function `findBestDeal`: map quotes to `(vendor, price + shipping)`, sort ascending
by total cost; the cheapest entry wins, `savings` is the most expensive
total minus the cheapest total. `none` models the crash on an empty list. -/
def findBestDeal (sources : List PartSource) : Option Deal :=
  let deals : List Deal :=
    sources.map (fun s => { vendor := s.vendor, totalCost := s.price + s.shipping, savings := 0 })
  let sorted := sortDeals deals
  match sorted, sorted.getLast? with
  | cheapest :: _, some mostExpensive =>
      some { cheapest with savings := mostExpensive.totalCost - cheapest.totalCost }
  | _, _ => none

/-! ### JS string/number helpers for the tool catalog route -/

/-- Lower-cased character list of a string (JS `s.toLowerCase()` on ASCII names). -/
def lowerStr (s : String) : List Char :=
  s.data.map Char.toLower

/-- Test that `pat` is a leading segment of `hay` (`startsW hay pat`). -/
def startsW : List Char → List Char → Bool
  | _, [] => true
  | [], _ :: _ => false
  | c :: cs, d :: ds => c == d && startsW cs ds

/-- JS `hay.includes(pat)`: `pat` occurs contiguously in `hay`. -/
def hasSub : List Char → List Char → Bool
  | [], pat => pat.isEmpty
  | c :: cs, pat => startsW (c :: cs) pat || hasSub cs pat

/-- Digits consumed from the front of a character list, with the rest. -/
def takeDigits : List Char → List Nat × List Char
  | [] => ([], [])
  | c :: cs =>
      if c.isDigit then
        let (ds, r) := takeDigits cs
        ((c.toNat - 48) :: ds, r)
      else ([], c :: cs)

/-- Value of a big-endian digit list. -/
def natOfDigits (ds : List Nat) : Nat :=
  ds.foldl (fun a d => 10 * a + d) 0

/-- Model of JS `parseFloat`: longest numeric front segment
(optional sign, integer part, optional fraction, optional exponent);
`none` models NaN when no digits are found. -/
def parseFloatQ (s : String) : Option ℚ :=
  let cs := s.data.dropWhile (fun c => c == ' ' || c == '\t' || c == '\n')
  let (sign, cs1) : ℚ × List Char :=
    match cs with
    | '-' :: r => (-1, r)
    | '+' :: r => (1, r)
    | _ => (1, cs)
  let (ip, cs2) := takeDigits cs1
  let (fp, cs3) :=
    match cs2 with
    | '.' :: r => takeDigits r
    | _ => ([], cs2)
  if ip.isEmpty && fp.isEmpty then none
  else
    let mant : ℚ := (natOfDigits ip : ℚ) + (natOfDigits fp : ℚ) / (10 : ℚ) ^ fp.length
    let (eneg, es) :=
      match cs3 with
      | 'e' :: '-' :: r => (true, (takeDigits r).1)
      | 'E' :: '-' :: r => (true, (takeDigits r).1)
      | 'e' :: '+' :: r => (false, (takeDigits r).1)
      | 'E' :: '+' :: r => (false, (takeDigits r).1)
      | 'e' :: r => (false, (takeDigits r).1)
      | 'E' :: r => (false, (takeDigits r).1)
      | _ => (false, [])
    let v :=
      if es.isEmpty then mant
      else if eneg then mant / (10 : ℚ) ^ natOfDigits es
      else mant * (10 : ℚ) ^ natOfDigits es
    some (sign * v)

/-! ### Tool catalog (`/api/tools/catalog`) -/

/-- An inventory row of a lending library (`lib.tools` relation). -/
structure LibTool where
  name : String
  available : Bool
deriving DecidableEq

/-- A tool-lending library row. -/
structure ToolLibrary where
  id : Nat
  name : String
  latitude : ℚ
  longitude : ℚ
  tools : List LibTool
deriving DecidableEq

/-- Per-tool nearby-library annotation added to the response. -/
structure LibAnnotation where
  id : Nat
  name : String
  distance : ℚ
  available : Bool
deriving DecidableEq

/-- Catalog entry (`ToolInfo`; fields the route reads; `toolLibraries`
is absent — `none` — on every static catalog entry). -/
structure ToolInfo where
  id : String
  name : String
  category : String
  essentialFor : List String
  avgPrice : ℚ
  rentalAvailable : Bool
  toolLibraries : Option (List LibAnnotation) := none
deriving DecidableEq

/-- The phillips screwdriver set entry of the static catalog. -/
def phillipsEntry : ToolInfo :=
  { id := "phillips-screwdriver-set", name := "Phillips Screwdriver Set",
    category := "Hand Tools", essentialFor := ["electronics", "appliances", "furniture"],
    avgPrice := 15.99, rentalAvailable := false }

/-- The static `TOOL_CATALOG` database (names, categories and device
categories as in the source; purchase-link fields omitted). -/
def TOOL_CATALOG : List ToolInfo :=
  [ phillipsEntry,
    { id := "spudger-set", name := "Plastic Spudger Set",
      category := "Specialty Tools", essentialFor := ["electronics", "smartphones", "tablets"],
      avgPrice := 8.99, rentalAvailable := false },
    { id := "multimeter", name := "Digital Multimeter",
      category := "Diagnostic Tools", essentialFor := ["electronics", "appliances", "automotive"],
      avgPrice := 25.99, rentalAvailable := true },
    { id := "heat-gun", name := "Heat Gun",
      category := "Power Tools", essentialFor := ["electronics", "automotive", "appliances"],
      avgPrice := 35.99, rentalAvailable := true },
    { id := "torx-screwdriver-set", name := "Torx Screwdriver Set (T5-T20)",
      category := "Hand Tools", essentialFor := ["electronics", "automotive", "appliances"],
      avgPrice := 12.99, rentalAvailable := false },
    { id := "soldering-iron", name := "Soldering Iron with Temperature Control",
      category := "Electronics Tools", essentialFor := ["electronics"],
      avgPrice := 29.99, rentalAvailable := true },
    { id := "ifixit-toolkit", name := "iFixit Essential Electronics Toolkit",
      category := "Specialty Toolkits", essentialFor := ["electronics", "smartphones", "laptops"],
      avgPrice := 69.99, rentalAvailable := true },
    { id := "wire-strippers", name := "Wire Strippers / Crimpers",
      category := "Hand Tools", essentialFor := ["electronics", "automotive", "appliances"],
      avgPrice := 16.99, rentalAvailable := false } ]

/-- The inventory test from the route: some inventory item name,
lower-cased, `includes` the lower-cased tool display name. -/
def libStocksTool (toolName : String) (lib : ToolLibrary) : Bool :=
  lib.tools.any (fun t => hasSub (lowerStr t.name) (lowerStr toolName))

/-- Stable insertion by ascending `distance` (the JS stable distance sort). -/
def insertAnn (a : LibAnnotation) : List LibAnnotation → List LibAnnotation
  | [] => [a]
  | b :: bs => if a.distance ≤ b.distance then a :: b :: bs else b :: insertAnn a bs

/-- Stable sort of library annotations by ascending distance. -/
def sortAnns : List LibAnnotation → List LibAnnotation
  | [] => []
  | a :: as' => insertAnn a (sortAnns as')

/-- The per-tool library list the route builds: nearby libraries whose
inventory matches the tool, annotated with the (abstract) distance and
the matched row's availability, sorted by ascending distance.
`calculateDistance` (haversine over floats) is passed in abstractly. -/
def librariesWithTool (calculateDistance : ℚ → ℚ → ℚ → ℚ → ℚ)
    (latitude longitude : ℚ) (nearbyLibraries : List ToolLibrary)
    (tool : ToolInfo) : List LibAnnotation :=
  sortAnns ((nearbyLibraries.filter (libStocksTool tool.name)).map (fun lib =>
    let toolInLibrary :=
      lib.tools.find? (fun t => hasSub (lowerStr t.name) (lowerStr tool.name))
    { id := lib.id, name := lib.name,
      distance := calculateDistance latitude longitude lib.latitude lib.longitude,
      available := (toolInLibrary.map (·.available)).getD false }))

/-- Route `GET /api/tools/catalog` after the rate-limit and auth gates: category
and device-category filters, then — only when both parsed coordinates are
truthy — the nearby-library bounding-box query and per-tool annotation. -/
def toolsCatalogGet (calculateDistance : ℚ → ℚ → ℚ → ℚ → ℚ)
    (allLibraries : List ToolLibrary)
    (categoryP deviceCategoryP latitudeP longitudeP : Option String) : List ToolInfo :=
  let latitude : Option ℚ := parseFloatQ (jsOrStr latitudeP "0")
  let longitude : Option ℚ := parseFloatQ (jsOrStr longitudeP "0")
  let tools0 := TOOL_CATALOG
  let tools1 :=
    match categoryP with
    | some c => if c ≠ "" then tools0.filter (fun t => t.category = c) else tools0
    | none => tools0
  let tools2 :=
    match deviceCategoryP with
    | some dc => if dc ≠ "" then tools1.filter (fun t => t.essentialFor.contains dc) else tools1
    | none => tools1
  if jsTruthyNum latitude && jsTruthyNum longitude then
    let lat := latitude.getD 0
    let lon := longitude.getD 0
    let nearbyLibraries :=
      (allLibraries.filter (fun lib =>
        lat - 0.5 ≤ lib.latitude && lib.latitude ≤ lat + 0.5 &&
        lon - 0.5 ≤ lib.longitude && lib.longitude ≤ lon + 0.5)).take 10
    tools2.map (fun tool =>
      let anns := librariesWithTool calculateDistance lat lon nearbyLibraries tool
      { tool with toolLibraries := some anns })
  else
    tools2

/-! ### Data model and database state -/

/-- A user row: `id` is the internal primary key, `clerkId` the auth id
(`checkSubscriptionAccess` is keyed by `clerkId`, ownership checks by `id`). -/
structure User where
  id : Nat
  clerkId : Nat
deriving DecidableEq

/-- Item row: one identified physical object, owned by one user,
carrying the identification confidence. -/
structure Item where
  id : Nat
  userId : Nat
  confidence : ℚ
deriving DecidableEq

/-- Defect row, linked to an `Item` and to the reporting user. -/
structure Defect where
  id : Nat
  itemId : Nat
  userId : Nat
  symptoms : List String
deriving DecidableEq

/-- FixPath row, linked to a `Defect` and its owner. -/
structure FixPath where
  id : Nat
  defectId : Nat
  userId : Nat
  provenanceScore : ℚ
  sourceType : String
deriving DecidableEq

/-- Subscription status values compared by `checkSubscriptionAccess`. -/
inductive SubStatus where
  | ACTIVE
  | TRIALING
  | PAST_DUE
  | CANCELED
deriving DecidableEq

/-- Subscription row, keyed by the Clerk user id. -/
structure Subscription where
  clerkUserId : Nat
  status : SubStatus
deriving DecidableEq

/-- Database state: table contents plus a fresh-id counter modelling
unique primary-key generation. -/
structure DB where
  items : List Item
  defects : List Defect
  fixPaths : List FixPath
  subs : List Subscription
  nextId : Nat
deriving DecidableEq

/-- Lookup `db.item.findUnique` by id. -/
def findItem (db : DB) (id : Nat) : Option Item :=
  db.items.find? (fun i => i.id == id)

/-- Lookup `db.defect.findUnique` by id. -/
def findDefect (db : DB) (id : Nat) : Option Defect :=
  db.defects.find? (fun d => d.id == id)

/-- Lookup `db.fixPath.findUnique` by id. -/
def findFixPath (db : DB) (id : Nat) : Option FixPath :=
  db.fixPaths.find? (fun fp => fp.id == id)

/-- Function `checkSubscriptionAccess`: true exactly when a subscription row exists
for the Clerk user and its status is ACTIVE or TRIALING. -/
def checkSubscriptionAccess (db : DB) (clerkUserId : Nat) : Bool :=
  match db.subs.find? (fun s => s.clerkUserId == clerkUserId) with
  | none => false
  | some s => s.status == SubStatus.ACTIVE || s.status == SubStatus.TRIALING

/-! ### Rate limiting (`rateLimitHeaders` and route gating) -/

/-- Result of `rateLimit(request, tier)`. -/
structure RLResult where
  success : Bool
  limit : Option Nat
  remaining : Option Nat
  reset : Option Nat
deriving DecidableEq

/-- Function `rateLimitHeaders`: empty when `limit` is falsy, else the three
`X-RateLimit-*` headers. -/
def rateLimitHeaders (result : RLResult) : List (String × String) :=
  match result.limit with
  | none => []
  | some l =>
      if l = 0 then []
      else
        [ ("X-RateLimit-Limit", toString l),
          ("X-RateLimit-Remaining", toString (result.remaining.getD 0)),
          ("X-RateLimit-Reset", (result.reset.map toString).getD "") ]

/-- An HTTP response: status plus the explicit headers the handler attached. -/
structure HttpResp where
  status : Nat
  headers : List (String × String)
deriving DecidableEq

/-! ### `GET /api/fixpath/{id}` and `GET /api/repair/guide/{id}` -/

/-- Status computed by `GET /api/fixpath/{id}` after the rate-limit gate:
404 when the id does not resolve, 403 when the fix path's defect is not
owned by the caller, 200 otherwise (500 models a dangling relation). -/
def fixPathGetStatus (db : DB) (callerId : Nat) (id : Nat) : Nat :=
  match findFixPath db id with
  | none => 404
  | some fixPath =>
      match findDefect db fixPath.defectId with
      | none => 500
      | some defect => if defect.userId != callerId then 403 else 200

/-- Status computed by `GET /api/repair/guide/{id}` after the rate-limit
gate: the same lookup and ownership logic as `GET /api/fixpath/{id}`. -/
def repairGuideGetStatus (db : DB) (callerId : Nat) (id : Nat) : Nat :=
  match findFixPath db id with
  | none => 404
  | some fixPath =>
      match findDefect db fixPath.defectId with
      | none => 500
      | some defect => if defect.userId != callerId then 403 else 200

/-- Full `GET /api/fixpath/{id}` response including the rate-limit gate:
only the 429 branch attaches `rateLimitHeaders`; every other branch
returns a bare JSON response with no extra headers. -/
def fixPathGetResp (rl : RLResult) (db : DB) (callerId : Nat) (id : Nat) : HttpResp :=
  if !rl.success then { status := 429, headers := rateLimitHeaders rl }
  else { status := fixPathGetStatus db callerId id, headers := [] }

/-! ### `POST /api/defect/report` -/

/-- Result of `POST /api/defect/report`: status, next database state, and
the created defect when one was created. -/
structure ReportResult where
  status : Nat
  db : DB
  created : Option Defect
deriving DecidableEq

/-- Route `POST /api/defect/report` after the rate-limit gate: schema validation
(symptoms nonempty), then the item lookup — a missing item and an item
owned by another user are both rejected 404 — then the defect row is
created with `userId := caller.id`. -/
def defectReportPost (db : DB) (caller : User) (itemId : Nat)
    (symptoms : List String) : ReportResult :=
  if symptoms.isEmpty then { status := 400, db := db, created := none }
  else
    match findItem db itemId with
    | none => { status := 404, db := db, created := none }
    | some item =>
        if item.userId != caller.id then { status := 404, db := db, created := none }
        else
          let defect : Defect :=
            { id := db.nextId, itemId := itemId, userId := caller.id, symptoms := symptoms }
          { status := 200,
            db := { db with defects := db.defects ++ [defect], nextId := db.nextId + 1 },
            created := some defect }

/-! ### `POST /api/fixpath/recommend` -/

/-- Stable insertion by descending `provenanceScore` (prisma orderBy desc). -/
def insertFP (f : FixPath) : List FixPath → List FixPath
  | [] => [f]
  | g :: gs =>
      if f.provenanceScore ≥ g.provenanceScore then f :: g :: gs else g :: insertFP f gs

/-- Stable sort of fix paths by descending provenance score. -/
def sortFPDesc : List FixPath → List FixPath
  | [] => []
  | f :: fs => insertFP f (sortFPDesc fs)

/-- Result of `POST /api/fixpath/recommend`: status, recommendation ids in
response order, the `upgradeUrl` field when present, next database state. -/
structure RecResult where
  status : Nat
  ids : List Nat
  upgradeUrl : Option String
  db : DB
deriving DecidableEq

/-- Route `POST /api/fixpath/recommend` after the rate-limit gate: validate the
body, load the defect (missing or foreign-owned → 404), return the
existing fix paths ordered by descending provenance score when any exist,
otherwise gate on PRO entitlement (403 with an upgrade URL) and finally
synthesize and persist one AI fix path with provenance score 0.7. -/
def recommendPost (db : DB) (caller : User) (defectId : Option Nat) : RecResult :=
  match defectId with
  | none => { status := 400, ids := [], upgradeUrl := none, db := db }
  | some did =>
      match findDefect db did with
      | none => { status := 404, ids := [], upgradeUrl := none, db := db }
      | some defect =>
          if defect.userId != caller.id then
            { status := 404, ids := [], upgradeUrl := none, db := db }
          else
            let existingFixPaths := sortFPDesc (db.fixPaths.filter (fun fp => fp.defectId == did))
            if existingFixPaths.length > 0 then
              { status := 200, ids := existingFixPaths.map (·.id), upgradeUrl := none, db := db }
            else if !checkSubscriptionAccess db caller.clerkId then
              { status := 403, ids := [], upgradeUrl := some "/subscription", db := db }
            else
              let aiFixPath : FixPath :=
                { id := db.nextId, defectId := did, userId := caller.id,
                  provenanceScore := 0.7, sourceType := "AI_GENERATED" }
              let db2 : DB :=
                { db with
                  fixPaths := db.fixPaths ++ [aiFixPath]
                  nextId := db.nextId + 1 }
              { status := 200, ids := [aiFixPath.id], upgradeUrl := none, db := db2 }

/-- Full `POST /api/fixpath/recommend` response including the rate-limit
gate: only the 429 branch attaches `rateLimitHeaders`. -/
def recommendResp (rl : RLResult) (db : DB) (caller : User)
    (defectId : Option Nat) : HttpResp × DB :=
  if !rl.success then ({ status := 429, headers := rateLimitHeaders rl }, db)
  else
    let r := recommendPost db caller defectId
    ({ status := r.status, headers := [] }, r.db)

/-! ### `POST /api/device/identify` -/

/-- The `DeviceIdentificationResult` fields the claims touch. -/
structure AIDevice where
  brand : String
  model : String
  modelNumber : Option String
  category : String
  confidence : ℚ
deriving DecidableEq

/-- A catalog row for the brand+model lookup (`searchDeviceDatabase` hit). -/
structure CatalogEntry where
  brand : String
  model : String
  category : String
deriving DecidableEq

/-- Function `searchDeviceDatabase` as it stands in the source: the lookup body
is a stub that always returns `null`. -/
def searchDeviceDatabase (_brand _model : String) : Option CatalogEntry :=
  none

/-- Fallback identity used when the AI response has no parsable JSON. -/
def fallbackDevice : AIDevice :=
  { brand := "Unknown", model := "Unidentified Device", modelNumber := none,
    category := "electronics", confidence := 0.3 }

/-- Function `identifyDeviceFromImage` after the vision call: take the parsed AI
JSON (or the 0.3-confidence fallback), then merge the catalog hit over it,
raising confidence to `max(deviceInfo.confidence || 0, 0.9)`. The catalog
lookup result is passed in explicitly. -/
def identifyDeviceFromImage (parsed : Option AIDevice)
    (dbMatch : Option CatalogEntry) : AIDevice :=
  let deviceInfo := parsed.getD fallbackDevice
  match dbMatch with
  | none => deviceInfo
  | some m =>
      { deviceInfo with
        brand := m.brand
        model := m.model
        category := m.category
        confidence := max (jsOrQ (some deviceInfo.confidence) 0) 0.9 }

/-- Function `searchByModelNumber`: fixed 0.5-confidence template identity. -/
def searchByModelNumber (modelNumber : String) (brand : Option String) : AIDevice :=
  { brand := jsOrStr brand "Unknown", model := modelNumber,
    modelNumber := some modelNumber, category := "electronics", confidence := 0.5 }

/-- The hint overrides of the POST handler: brand and category hints
replace the AI fields only when AI confidence is below 0.9; confidence
itself is never changed. -/
def applyHints (info : AIDevice) (brandHint categoryHint : Option String) : AIDevice :=
  let info1 :=
    match brandHint with
    | some b => if b ≠ "" ∧ info.confidence < 0.9 then { info with brand := b } else info
    | none => info
  match categoryHint with
  | some c => if c ≠ "" ∧ info1.confidence < 0.9 then { info1 with category := c } else info1
  | none => info1

/-- Route `POST /api/device/identify` after the rate-limit gate: reject 400 when
neither an image nor a model number is supplied; identify via the image
pipeline (AI parse + catalog merge) or via the model-number template;
apply hints; create the `Item` row with the resulting confidence, stored
unclamped. -/
def deviceIdentifyPost (db : DB) (caller : User) (hasImage : Bool)
    (parsed : Option AIDevice) (dbMatch : Option CatalogEntry)
    (modelNumberHint brandHint categoryHint : Option String) :
    Nat × DB × Option Item :=
  if !hasImage && (jsOrStr modelNumberHint "" == "") then (400, db, none)
  else
    let deviceInfo :=
      if hasImage then identifyDeviceFromImage parsed dbMatch
      else searchByModelNumber (jsOrStr modelNumberHint "") brandHint
    let deviceInfo := applyHints deviceInfo brandHint categoryHint
    let item : Item := { id := db.nextId, userId := caller.id,
                         confidence := deviceInfo.confidence }
    (200, { db with items := db.items ++ [item], nextId := db.nextId + 1 }, some item)

/-! ### Concrete fixtures -/

def userA : User := { id := 1, clerkId := 101 }

def userB : User := { id := 2, clerkId := 102 }

def itemA : Item := { id := 10, userId := 1, confidence := 0.95 }

def itemB : Item := { id := 11, userId := 2, confidence := 0.8 }

def defectA : Defect := { id := 20, itemId := 10, userId := 1, symptoms := ["no power"] }

def defectB : Defect := { id := 21, itemId := 11, userId := 2, symptoms := ["cracked screen"] }

def fpB : FixPath :=
  { id := 30, defectId := 21, userId := 2, provenanceScore := 0.8, sourceType := "COMMUNITY" }

def exDB : DB :=
  { items := [itemA, itemB], defects := [defectA, defectB], fixPaths := [fpB],
    subs := [], nextId := 40 }

def exRLok : RLResult :=
  { success := true, limit := some 100, remaining := some 99, reset := some 1700000000 }

def aiOverconf : AIDevice :=
  { brand := "Acme", model := "X1", modelNumber := none, category := "electronics",
    confidence := 3 / 2 }

def aiHalf : AIDevice :=
  { brand := "Acme", model := "X1", modelNumber := none, category := "electronics",
    confidence := 1 / 2 }

def catAcme : CatalogEntry := { brand := "Acme", model := "X1 Pro", category := "electronics" }

def libFlathead : ToolLibrary :=
  { id := 1, name := "Midtown Tool Library", latitude := 40, longitude := -74,
    tools := [{ name := "Flathead Screwdriver", available := true }] }

def libPhillips : ToolLibrary :=
  { id := 2, name := "Uptown Tool Library", latitude := 40, longitude := -74,
    tools := [{ name := "iFixit Phillips Screwdriver Set", available := true }] }

def exC3 : List PartSource :=
  [ { vendor := "V1", url := "", price := 10, currency := "USD", shipping := 0,
      deliveryDays := 1, rating := 0, reviews := 0, isOEM := false, warranty := "" },
    { vendor := "V2", url := "", price := 8, currency := "USD", shipping := 6,
      deliveryDays := 1, rating := 0, reviews := 0, isOEM := false, warranty := "" },
    { vendor := "V3", url := "", price := 15, currency := "USD", shipping := 1,
      deliveryDays := 1, rating := 0, reviews := 0, isOEM := false, warranty := "" } ]

/-! ### Theorems -/

theorem sortDeals_four (a b c d : Deal)
    (hcd : ¬ c.totalCost ≤ d.totalCost)
    (hbd : ¬ b.totalCost ≤ d.totalCost)
    (hbc : b.totalCost ≤ c.totalCost)
    (had : ¬ a.totalCost ≤ d.totalCost)
    (hac : a.totalCost ≤ c.totalCost) :
    ∃ m1 m2, sortDeals [a, b, c, d] = [d, m1, m2, c] := by
  have h1 : insertDeal c [d] = [d, c] := by
    simp only [insertDeal]; rw [if_neg hcd]
  have h2 : insertDeal b [d, c] = [d, b, c] := by
    simp only [insertDeal]; rw [if_neg hbd, if_pos hbc]
  have h0 : insertDeal d [] = [d] := rfl
  rcases le_or_lt a.totalCost b.totalCost with hab | hab
  · refine ⟨a, b, ?_⟩
    simp only [sortDeals]
    rw [h0, h1, h2]
    simp only [insertDeal]
    rw [if_neg had, if_pos hab]
  · refine ⟨b, a, ?_⟩
    simp only [sortDeals]
    rw [h0, h1, h2]
    simp only [insertDeal]
    rw [if_neg had, if_neg (not_le.mpr hab), if_pos hac]

theorem findBestDeal_of_sorted (sources : List PartSource) (a b c d m1 m2 : Deal)
    (hmap : sources.map (fun s => { vendor := s.vendor, totalCost := s.price + s.shipping, savings := 0 }) = [a, b, c, d])
    (hsort : sortDeals [a, b, c, d] = [d, m1, m2, c]) :
    findBestDeal sources =
      some { vendor := d.vendor, totalCost := d.totalCost,
             savings := c.totalCost - d.totalCost } := by
  simp only [findBestDeal, hmap, hsort, List.getLast?, List.getLast]

/-- C10: for every part whose base price p (positive estimatedCost, or the default 29.99 when unset or 0) is positive, the best deal over the four template quotes is always the AliExpress quote with total 0.6 times p, and the reported savings is 0.9 times p + 8.99, OEM Direct at 1.5 times p + 8.99 being the most expensive quote. -/
theorem bestdeal_template_always_aliexpress (partNumber affiliateUrl : Option String) (estimatedCost : Option ℚ)
    (hp : 0 < jsOrQ estimatedCost 29.99) :
    findBestDeal (generateVendorSources partNumber estimatedCost affiliateUrl) =
      some { vendor := "AliExpress",
             totalCost := jsOrQ estimatedCost 29.99 * 0.6,
             savings := jsOrQ estimatedCost 29.99 * 0.9 + 8.99 } := by
  set p := jsOrQ estimatedCost 29.99 with hpd
  have hcd : ¬ ((⟨"OEM Direct", p * 1.5 + 8.99, 0⟩ : Deal).totalCost ≤ (⟨"AliExpress", p * 0.6 + 0, 0⟩ : Deal).totalCost) := by
    dsimp only; linarith
  have hbd : ¬ ((⟨"eBay", p * 0.85 + 5.99, 0⟩ : Deal).totalCost ≤ (⟨"AliExpress", p * 0.6 + 0, 0⟩ : Deal).totalCost) := by
    dsimp only; linarith
  have hbc : (⟨"eBay", p * 0.85 + 5.99, 0⟩ : Deal).totalCost ≤ (⟨"OEM Direct", p * 1.5 + 8.99, 0⟩ : Deal).totalCost := by
    dsimp only; linarith
  have had : ¬ ((⟨"Amazon", p * 1.1 + 0, 0⟩ : Deal).totalCost ≤ (⟨"AliExpress", p * 0.6 + 0, 0⟩ : Deal).totalCost) := by
    dsimp only; linarith
  have hac : (⟨"Amazon", p * 1.1 + 0, 0⟩ : Deal).totalCost ≤ (⟨"OEM Direct", p * 1.5 + 8.99, 0⟩ : Deal).totalCost := by
    dsimp only; linarith
  obtain ⟨m1, m2, hsort⟩ := sortDeals_four _ _ _ _ hcd hbd hbc had hac
  have hmap : (generateVendorSources partNumber estimatedCost affiliateUrl).map
      (fun s => ({ vendor := s.vendor, totalCost := s.price + s.shipping, savings := 0 } : Deal)) =
      [⟨"Amazon", p * 1.1 + 0, 0⟩, ⟨"eBay", p * 0.85 + 5.99, 0⟩,
       ⟨"OEM Direct", p * 1.5 + 8.99, 0⟩, ⟨"AliExpress", p * 0.6 + 0, 0⟩] := by
    simp [generateVendorSources, hpd]
  have h := findBestDeal_of_sorted _ _ _ _ _ _ _ hmap hsort
  rw [h]
  simp only [Option.some.injEq, Deal.mk.injEq]
  exact ⟨trivial, by ring, by ring⟩

theorem insertFP_length (f : FixPath) (l : List FixPath) :
    (insertFP f l).length = l.length + 1 := by
  induction l with
  | nil => rfl
  | cons g gs ih =>
      simp only [insertFP]
      split
      · simp
      · simp [ih]

theorem sortFPDesc_length (l : List FixPath) : (sortFPDesc l).length = l.length := by
  induction l with
  | nil => rfl
  | cons f fs ih => simp [sortFPDesc, insertFP_length, ih]

/-- C5: calling POST /fixpath/recommend twice in succession with no entitlement change returns on the second call exactly the same list (hence set) of FixPath ids as the first call, and the second call leaves the database unchanged (no duplicate synthesis). -/
theorem recommend_idempotent (db : DB) (caller : User) (defectId : Option Nat) :
    (recommendPost (recommendPost db caller defectId).db caller defectId).ids =
      (recommendPost db caller defectId).ids ∧
    (recommendPost (recommendPost db caller defectId).db caller defectId).db =
      (recommendPost db caller defectId).db := by
  rcases defectId with _ | did
  · exact ⟨rfl, rfl⟩
  rcases hfind : findDefect db did with _ | defect
  · simp [recommendPost, hfind]
  by_cases howner : (defect.userId != caller.id) = true
  · simp [recommendPost, hfind, howner]
  by_cases hlen : (sortFPDesc (db.fixPaths.filter (fun fp => fp.defectId == did))).length > 0
  · simp [recommendPost, hfind, howner, hlen]
  by_cases hsub : checkSubscriptionAccess db caller.clerkId = true
  case neg =>
    simp [recommendPost, hfind, howner, hlen, hsub]
  case pos =>
    have hfilt : db.fixPaths.filter (fun fp => fp.defectId == did) = [] := by
      have hl := sortFPDesc_length (db.fixPaths.filter (fun fp => fp.defectId == did))
      have hz : (db.fixPaths.filter (fun fp => fp.defectId == did)).length = 0 := by omega
      exact List.length_eq_zero.mp hz
    have hr1 : recommendPost db caller (some did) =
        { status := 200, ids := [db.nextId], upgradeUrl := none,
          db := { db with
                  fixPaths := db.fixPaths ++
                    [{ id := db.nextId, defectId := did, userId := caller.id,
                       provenanceScore := 0.7, sourceType := "AI_GENERATED" }]
                  nextId := db.nextId + 1 } } := by
      simp [recommendPost, hfind, howner, hfilt, hsub, sortFPDesc]
    have hfind2 : findDefect
        ({ db with
           fixPaths := db.fixPaths ++
             [{ id := db.nextId, defectId := did, userId := caller.id,
                provenanceScore := 0.7, sourceType := "AI_GENERATED" }]
           nextId := db.nextId + 1 }) did = some defect := hfind
    rw [hr1]
    simp only [recommendPost, hfind2, howner, List.filter_append, hfilt]
    simp [recommendPost, hfind2, howner, hfilt, List.filter_append, sortFPDesc, insertFP]

theorem startsW_iff (pat hay : List Char) :
    startsW hay pat = true ↔ ∃ r, hay = pat ++ r := by
  induction pat generalizing hay with
  | nil => simp [startsW]
  | cons d ds ih =>
      cases hay with
      | nil => simp [startsW]
      | cons c cs =>
          simp only [startsW, Bool.and_eq_true, beq_iff_eq, ih, List.cons_append,
            List.cons.injEq]
          constructor
          · rintro ⟨rfl, r, rfl⟩
            exact ⟨r, rfl, rfl⟩
          · rintro ⟨r, rfl, rfl⟩
            exact ⟨rfl, r, rfl⟩

theorem hasSub_iff (hay pat : List Char) :
    hasSub hay pat = true ↔ ∃ l r, hay = l ++ pat ++ r := by
  induction hay with
  | nil =>
      simp only [hasSub, List.isEmpty_iff]
      constructor
      · rintro rfl
        exact ⟨[], [], rfl⟩
      · rintro ⟨l, r, h⟩
        have := congrArg List.length h
        simp at this
        have hp : pat.length = 0 := by omega
        exact List.length_eq_zero.mp hp
  | cons c cs ih =>
      simp only [hasSub, Bool.or_eq_true, startsW_iff, ih]
      constructor
      · rintro (⟨r, hr⟩ | ⟨l, r, hr⟩)
        · exact ⟨[], r, by simpa using hr⟩
        · exact ⟨c :: l, r, by simpa using hr⟩
      · rintro ⟨l, r, h⟩
        cases l with
        | nil =>
            left
            exact ⟨r, by simpa using h⟩
        | cons x xs =>
            right
            rcases List.cons.inj h with ⟨rfl, h2⟩
            exact ⟨xs, r, h2⟩

theorem parseFloatQ_zero : parseFloatQ "0" = some 0 := by
  have h1 : '0'.isDigit = true := by decide
  have h2 : ('0' == ' ') = false := by decide
  have h3 : ('0' == '\t') = false := by decide
  have h4 : ('0' == '\n') = false := by decide
  norm_num [parseFloatQ, takeDigits, natOfDigits, List.dropWhile, h1, h2, h3, h4]
  exact Or.inr (by decide)

theorem catalog_no_libs : ∀ t ∈ TOOL_CATALOG, t.toolLibraries = none := by
  intro t ht
  simp only [TOOL_CATALOG, List.mem_cons, List.not_mem_nil, or_false] at ht
  rcases ht with rfl | rfl | rfl | rfl | rfl | rfl | rfl | rfl <;> rfl

/-- C9: when the latitude or longitude query parameter of GET /tools/catalog is absent, non-numeric, or exactly 0, the nearby-library lookup is skipped entirely and no tool in the response carries a toolLibraries annotation, regardless of the libraries that exist nearby. -/
theorem catalog_skips_libraries_on_falsy_coords (calculateDistance : ℚ → ℚ → ℚ → ℚ → ℚ) (allLibraries : List ToolLibrary)
    (categoryP deviceCategoryP latitudeP longitudeP : Option String)
    (h : latitudeP = none ∨ parseFloatQ (jsOrStr latitudeP "0") = none ∨
         parseFloatQ (jsOrStr latitudeP "0") = some 0 ∨
         longitudeP = none ∨ parseFloatQ (jsOrStr longitudeP "0") = none ∨
         parseFloatQ (jsOrStr longitudeP "0") = some 0) :
    ∀ t ∈ toolsCatalogGet calculateDistance allLibraries categoryP deviceCategoryP
        latitudeP longitudeP, t.toolLibraries = none := by
  have hgate : (jsTruthyNum (parseFloatQ (jsOrStr latitudeP "0")) &&
      jsTruthyNum (parseFloatQ (jsOrStr longitudeP "0"))) = false := by
    rcases h with rfl | h | h | rfl | h | h
    · simp [jsOrStr, parseFloatQ_zero, jsTruthyNum]
    · simp [h, jsTruthyNum]
    · simp [h, jsTruthyNum]
    · simp [jsOrStr, parseFloatQ_zero, jsTruthyNum]
    · simp [h, jsTruthyNum]
    · simp [h, jsTruthyNum]
  intro t ht
  simp only [toolsCatalogGet, hgate, if_false, Bool.false_eq_true] at ht
  have hcat : t ∈ TOOL_CATALOG := by
    rcases hc : categoryP with _ | c <;> rcases hd : deviceCategoryP with _ | d <;>
      simp only [hc, hd] at ht <;>
      first
        | exact ht
        | (split_ifs at ht <;>
            first
              | exact ht
              | exact List.mem_of_mem_filter ht
              | exact List.mem_of_mem_filter (List.mem_of_mem_filter ht))
  exact catalog_no_libs t hcat

/-- C1 (amended): on GET /fixpath/:id and GET /repair/guide/:id an id that does not resolve is rejected 404, while an id resolving to a fix path whose defect is owned by another user is rejected 403 — the two cases are distinguishable, not conflated into one 404. -/
theorem fixpath_read_status_split (db : DB) (callerId fid : Nat) :
    (findFixPath db fid = none →
      fixPathGetStatus db callerId fid = 404 ∧ repairGuideGetStatus db callerId fid = 404) ∧
    (∀ fp defect, findFixPath db fid = some fp →
      findDefect db fp.defectId = some defect → defect.userId ≠ callerId →
      fixPathGetStatus db callerId fid = 403 ∧ repairGuideGetStatus db callerId fid = 403) := by
  constructor
  · intro h
    simp [fixPathGetStatus, repairGuideGetStatus, h]
  · intro fp defect h1 h2 h3
    simp [fixPathGetStatus, repairGuideGetStatus, h1, h2, h3]

/-- Witness for C1: concrete 404 on a dangling id and concrete 403 on a foreign-owned fix path. -/
theorem fixpath_read_status_split_witness :
    (fixPathGetStatus exDB 1 99 = 404 ∧ repairGuideGetStatus exDB 1 99 = 404) ∧
    (fixPathGetStatus exDB 1 30 = 403 ∧ repairGuideGetStatus exDB 1 30 = 403) :=
  ⟨(fixpath_read_status_split exDB 1 99).1 rfl,
   (fixpath_read_status_split exDB 1 30).2 fpB defectB rfl rfl (by decide)⟩

/-- Counterexample to C1: a fix path owned by another user is rejected with 403, not 404, on both read routes. -/
theorem foreign_fixpath_read_returns_403 :
    fixPathGetStatus exDB 1 30 = 403 ∧ repairGuideGetStatus exDB 1 30 = 403 ∧
    (403 : Nat) ≠ 404 := by
  refine ⟨rfl, rfl, by decide⟩

/-- C2: every Defect created via POST /defect/report has userId equal to its parent Item owner (who is the caller), and a report against a missing or foreign-owned Item is rejected 404 with no Defect created and the database unchanged. -/
theorem defect_report_ownership (db : DB) (caller : User) (itemId : Nat) (symptoms : List String) :
    (∀ d, (defectReportPost db caller itemId symptoms).created = some d →
      ∃ it, findItem db itemId = some it ∧ it.userId = caller.id ∧
        d.userId = it.userId ∧ d.itemId = it.id) ∧
    ((findItem db itemId = none ∨
        ∃ it, findItem db itemId = some it ∧ it.userId ≠ caller.id) →
      symptoms ≠ [] →
      defectReportPost db caller itemId symptoms =
        { status := 404, db := db, created := none }) := by
  constructor
  · intro d hd
    by_cases hsym : symptoms.isEmpty
    · simp [defectReportPost, hsym] at hd
    · rcases hfind : findItem db itemId with _ | item
      · simp [defectReportPost, hsym, hfind] at hd
      · by_cases hown : (item.userId != caller.id) = true
        · simp [defectReportPost, hsym, hfind, hown] at hd
        · have howneq : item.userId = caller.id := by
            simpa [bne_iff_ne] using hown
          have hid : item.id = itemId := by
            have := List.find?_some hfind
            simpa using this
          simp only [defectReportPost, hsym, hfind, hown, Bool.false_eq_true,
            if_false, ite_false] at hd
          simp only [Option.some.injEq] at hd
          refine ⟨item, rfl, howneq, ?_, ?_⟩
          · rw [← hd]
            exact howneq.symm
          · rw [← hd]
            exact hid.symm
  · intro hbad hsymne
    have hsym : symptoms.isEmpty = false := by
      cases symptoms with
      | nil => exact absurd rfl hsymne
      | cons a l => rfl
    rcases hfind : findItem db itemId with _ | item
    · simp [defectReportPost, hsym, hfind]
    · rcases hbad with hnone | ⟨it, hit, hne⟩
      · rw [hfind] at hnone
        cases hnone
      · rw [hfind] at hit
        injection hit with hiteq
        subst hiteq
        have hown : (item.userId != caller.id) = true := by
          simp [bne_iff_ne]
          exact hne
        simp [defectReportPost, hsym, hfind, hown]

/-- Witness for C2: reporting against an item owned by another user returns 404 and leaves the database unchanged. -/
theorem defect_report_ownership_witness :
    defectReportPost exDB userA 11 ["leaks water"] =
      { status := 404, db := exDB, created := none } :=
  (defect_report_ownership exDB userA 11 ["leaks water"]).2 (Or.inr ⟨itemB, rfl, by decide⟩) (by decide)

/-- C6: a caller without PRO entitlement calling POST /fixpath/recommend for an owned Defect with zero existing FixPaths receives 403 with an upgradeUrl field, and the database is unchanged. -/
theorem recommend_nonpro_403_upgrade (db : DB) (caller : User) (did : Nat) (defect : Defect)
    (hfind : findDefect db did = some defect)
    (howner : defect.userId = caller.id)
    (hnone : db.fixPaths.filter (fun fp => fp.defectId == did) = [])
    (hsub : checkSubscriptionAccess db caller.clerkId = false) :
    recommendPost db caller (some did) =
      { status := 403, ids := [], upgradeUrl := some "/subscription", db := db } := by
  simp [recommendPost, hfind, howner, hnone, hsub, sortFPDesc]

/-- Witness for C6 on a concrete database with no subscriptions and a defect with no fix paths. -/
theorem recommend_nonpro_403_upgrade_witness :
    recommendPost exDB userA (some 20) =
      { status := 403, ids := [], upgradeUrl := some "/subscription", db := exDB } :=
  recommend_nonpro_403_upgrade exDB userA 20 defectA rfl rfl rfl rfl

/-- C8 (amended): the X-RateLimit headers are attached only on the 429 rate-limit rejection branch; successful (non-429) responses of the fixpath read and recommend routes carry no headers. -/
theorem ratelimit_headers_only_on_429 (rl : RLResult) (db : DB) (callerId fid : Nat)
    (caller : User) (defectId : Option Nat) :
    (rl.success = true →
      (fixPathGetResp rl db callerId fid).headers = [] ∧
      ((recommendResp rl db caller defectId).1).headers = []) ∧
    (rl.success = false →
      (fixPathGetResp rl db callerId fid).status = 429 ∧
      (fixPathGetResp rl db callerId fid).headers = rateLimitHeaders rl ∧
      ((recommendResp rl db caller defectId).1).status = 429 ∧
      ((recommendResp rl db caller defectId).1).headers = rateLimitHeaders rl) := by
  constructor
  · intro h
    simp [fixPathGetResp, recommendResp, h]
  · intro h
    simp [fixPathGetResp, recommendResp, h]

/-- Witness for C8: successful responses on a concrete database carry no headers. -/
theorem ratelimit_headers_only_on_429_witness :
    (fixPathGetResp exRLok exDB 2 30).headers = [] ∧
    ((recommendResp exRLok exDB userA (some 20)).1).headers = [] :=
  (ratelimit_headers_only_on_429 exRLok exDB 2 30 userA (some 20)).1 rfl

/-- Counterexample to C8: a successful authenticated 200 response of GET /fixpath/:id carries no X-RateLimit headers at all. -/
theorem success_response_lacks_ratelimit_headers :
    (fixPathGetResp exRLok exDB 2 30).status = 200 ∧
    (fixPathGetResp exRLok exDB 2 30).headers = [] := by
  refine ⟨rfl, rfl⟩

/-- Counterexample to C7: an inventory entry containing the word screwdriver does not match the tool Phillips Screwdriver Set, because the inventory name must contain the full display name. -/
theorem toolmatch_not_word_level :
    hasSub (lowerStr "Flathead Screwdriver") (lowerStr "screwdriver") = true ∧
    libStocksTool "Phillips Screwdriver Set" libFlathead = false := by
  refine ⟨by decide, by decide⟩

/-- C7 (amended): a tool is associated with a library exactly when some inventory item name, lower-cased, contains the lower-cased full tool display name as a contiguous substring; an entry containing the full phrase does match. -/
theorem toolmatch_requires_full_name (toolName : String) (lib : ToolLibrary) :
    (libStocksTool toolName lib = true ↔
      ∃ t, t ∈ lib.tools ∧ ∃ l r, lowerStr t.name = l ++ lowerStr toolName ++ r) ∧
    libStocksTool "Phillips Screwdriver Set" libPhillips = true := by
  constructor
  · simp [libStocksTool, List.any_eq_true, hasSub_iff]
  · decide

theorem applyHints_confidence (info : AIDevice) (bh ch : Option String) :
    (applyHints info bh ch).confidence = info.confidence := by
  unfold applyHints
  rcases bh with _ | b <;> rcases ch with _ | c <;> simp only [] <;>
    (try split_ifs) <;> rfl

theorem identify_confidence_bounds (parsed : Option AIDevice) (dbMatch : Option CatalogEntry)
    (h : ∀ d, parsed = some d → 0 ≤ d.confidence ∧ d.confidence ≤ 1) :
    0 ≤ (identifyDeviceFromImage parsed dbMatch).confidence ∧
    (identifyDeviceFromImage parsed dbMatch).confidence ≤ 1 := by
  have hbase : 0 ≤ (parsed.getD fallbackDevice).confidence ∧
      (parsed.getD fallbackDevice).confidence ≤ 1 := by
    rcases parsed with _ | d
    · norm_num [fallbackDevice]
    · exact h d rfl
  rcases dbMatch with _ | m
  · simpa [identifyDeviceFromImage] using hbase
  · simp only [identifyDeviceFromImage]
    constructor
    · have h9 : (0 : ℚ) ≤ 0.9 := by norm_num
      exact le_trans h9 (le_max_right _ _)
    · apply max_le
      · simp only [jsOrQ]
        split_ifs
        · norm_num
        · exact hbase.2
      · norm_num

/-- C4 (amended): the Item created by POST /device/identify has confidence in the unit interval whenever the AI-reported confidence lies in the unit interval (the fallback 0.3 and model-number 0.5 paths always do), and a catalog-matched identification always stores confidence at least 0.9; the AI value itself is stored unclamped. -/
theorem device_confidence_range_conditional (db : DB) (caller : User) (hasImage : Bool)
    (parsed : Option AIDevice) (dbMatch : Option CatalogEntry)
    (mn bh ch : Option String) :
    ((∀ d, parsed = some d → 0 ≤ d.confidence ∧ d.confidence ≤ 1) →
      ∀ it, (deviceIdentifyPost db caller hasImage parsed dbMatch mn bh ch).2.2 = some it →
        0 ≤ it.confidence ∧ it.confidence ≤ 1) ∧
    (hasImage = true → ∀ m, dbMatch = some m →
      ∀ it, (deviceIdentifyPost db caller hasImage parsed dbMatch mn bh ch).2.2 = some it →
        (0.9 : ℚ) ≤ it.confidence) := by
  constructor
  · intro hconf it hit
    by_cases hval : (!hasImage && (jsOrStr mn "" == "")) = true
    · simp [deviceIdentifyPost, hval] at hit
    · simp only [deviceIdentifyPost, hval, Bool.false_eq_true, if_false, ite_false,
        Option.some.injEq] at hit
      rw [← hit]
      simp only [applyHints_confidence]
      cases hasImage with
      | true =>
          simpa using identify_confidence_bounds parsed dbMatch hconf
      | false =>
          norm_num [searchByModelNumber]
  · intro himg m hm it hit
    subst himg hm
    have hval : (!true && (jsOrStr mn "" == "")) = false := by simp
    simp only [deviceIdentifyPost, hval, Bool.false_eq_true, if_false, ite_false,
      Option.some.injEq] at hit
    rw [← hit]
    simp only [applyHints_confidence, if_true]
    simp only [identifyDeviceFromImage]
    exact le_max_right _ _

/-- Witness for C4 with an in-range AI confidence of one half and a catalog hit. -/
theorem device_confidence_range_conditional_witness :
    0 ≤ max (jsOrQ (some aiHalf.confidence) 0) 0.9 ∧
    max (jsOrQ (some aiHalf.confidence) 0) 0.9 ≤ 1 ∧
    (0.9 : ℚ) ≤ max (jsOrQ (some aiHalf.confidence) 0) 0.9 := by
  have h := device_confidence_range_conditional exDB userA true (some aiHalf) (some catAcme) none none none
  have hconf : ∀ d, (some aiHalf = some d) → 0 ≤ d.confidence ∧ d.confidence ≤ 1 := by
    rintro d hd
    injection hd with hd
    subst hd
    norm_num [aiHalf]
  have h1 := h.1 hconf _ rfl
  have h2 := h.2 rfl catAcme rfl _ rfl
  exact ⟨h1.1, h1.2, h2⟩

/-- Counterexample to C4: an AI-reported confidence of 3/2 is stored as-is on the created Item, violating the unit-interval invariant. -/
theorem device_confidence_unclamped :
    (deviceIdentifyPost exDB userA true (some aiOverconf) none none none none).2.2 =
      some { id := 40, userId := 1, confidence := 3 / 2 } ∧
    ¬ ((3 : ℚ) / 2 ≤ 1) := by
  refine ⟨rfl, by norm_num⟩

/-- Witness for C9: a non-numeric latitude with a matching library nearby still yields no annotation on the first catalog entry. -/
theorem catalog_skips_libraries_on_falsy_coords_witness : phillipsEntry.toolLibraries = none :=
  catalog_skips_libraries_on_falsy_coords (fun _ _ _ _ => 0) [libPhillips] none none (some "abc") (some "xyz")
    (Or.inr (Or.inl rfl)) phillipsEntry (List.mem_cons_self _ _)

/-- Counterexample to C3: on the quoted three vendor quotes the selected total cost is 10, not 14, and the savings is not 2. -/
theorem bestdeal_example_not_total14 :
    (findBestDeal exC3).map (fun d => d.totalCost) = some 10 ∧
    ¬ (findBestDeal exC3).map (fun d => d.totalCost) = some 14 ∧
    ¬ (findBestDeal exC3).map (fun d => d.savings) = some 2 := by
  norm_num [findBestDeal, sortDeals, insertDeal, exC3, List.getLast?]

/-- C3 (amended): on quotes (10,0), (8,6), (15,1) findBestDeal selects the first vendor with total 10 and savings 16 - 10 = 6. -/
theorem bestdeal_example_selects_total10 :
    findBestDeal exC3 = some { vendor := "V1", totalCost := 10, savings := 6 } := by
  norm_num [findBestDeal, sortDeals, insertDeal, exC3, List.getLast?]

/-- Witness for C10 at the default base price 29.99 (estimatedCost unset). -/
theorem bestdeal_template_always_aliexpress_witness :
    findBestDeal (generateVendorSources none none none) =
      some { vendor := "AliExpress", totalCost := jsOrQ none 29.99 * 0.6,
             savings := jsOrQ none 29.99 * 0.9 + 8.99 } :=
  bestdeal_template_always_aliexpress none none none (by norm_num [jsOrQ])

end RepairAtlas
